import Mathlib

/-!
Verification of the contact-form submission and report-rendering flow of the
seo-ranker repository (src/project/components/contact-form.tsx).

The component is embedded as a small state machine.  Side effects (the POST
request, toast notifications, the scheduled success-state revert, clipboard
writes, PDF saves) are reified as an `Action` list that each handler emits.
The email and URL grammars come from the zod library, external to the
repository; they are taken as boolean-predicate parameters in `ValidationEnv`
so that every theorem about validation quantifies over the actual grammars.
-/

namespace SeoRanker

/-- A minimal model of JavaScript JSON values, as produced by
`response.json()` in `onSubmit`. -/
inductive Json where
  | str : String → Json
  | num : Int → Json
  | bool : Bool → Json
  | null : Json
  | obj : List (String × Json) → Json
deriving Repr

/-- Property access `result.full_report`: a field lookup on an object,
`undefined` (here `none`) on a missing field or a non-object value. -/
def Json.get : Json → String → Option Json
  | .obj fs, k => fs.lookup k
  | _, _ => none

/-- JavaScript truthiness of a JSON value, as used by the guards
`fullReport && ...` and `fullReport || ''` in the component. -/
def Json.truthy : Json → Bool
  | .str s => !s.isEmpty
  | .num n => n != 0
  | .bool b => b
  | .null => false
  | .obj _ => true

/-- JavaScript string coercion, as applied by
`navigator.clipboard.writeText` to its argument. -/
def Json.coerceString : Json → String
  | .str s => s
  | .num n => toString n
  | .bool b => if b then "true" else "false"
  | .null => "null"
  | .obj _ => "[object Object]"

/-- The JavaScript `a || b` pattern on a possibly-undefined value:
`fullReport || ''` in the copy handler. -/
def jsOr (v : Option Json) (dflt : Json) : Json :=
  match v with
  | some x => if x.truthy then x else dflt
  | none => dflt

/-- The raw form field values (`FormData` in contact-form.tsx).  `website`
is `none` when the optional field was never filled in (undefined). -/
structure FormData where
  name : String
  email : String
  phone : String
  website : Option String
deriving DecidableEq, Repr

/-- The field values after `reset()`: all inputs cleared. -/
def FormData.empty : FormData := ⟨"", "", "", none⟩

/-- Per-field validation error messages (`formState.errors`). -/
structure FieldErrors where
  name : Option String
  email : Option String
  phone : Option String
  website : Option String
deriving DecidableEq, Repr

/-- No validation errors. -/
def FieldErrors.empty : FieldErrors := ⟨none, none, none, none⟩

/-- Whether any field has a validation error, i.e. whether the resolver
blocks the submit handler. -/
def FieldErrors.hasAny (e : FieldErrors) : Bool :=
  e.name.isSome || e.email.isSome || e.phone.isSome || e.website.isSome

/-- The grammars supplied by the zod library, external to this repository:
`z.string().email()` and `z.string().url()`.  Their internals are opaque
collaborators, so they are parameters of the validation model. -/
structure ValidationEnv where
  emailOk : String → Bool
  urlOk : String → Bool

/-- `formSchema` from contact-form.tsx:
name `.min(2)`, email `.email()`, phone `.min(10)`,
website `.url().optional().or(z.literal(''))`, with the exact error
messages of the source. -/
def validate (env : ValidationEnv) (d : FormData) : FieldErrors where
  name := if d.name.length < 2 then some "Name must be at least 2 characters" else none
  email := if env.emailOk d.email then none else some "Please enter a valid email address"
  phone := if d.phone.length < 10 then some "Please enter a valid phone number" else none
  website :=
    match d.website with
    | none => none
    | some w =>
      if w = "" then none
      else if env.urlOk w then none
      else some "Please enter a valid website URL"

/-- The observable side effects of the component's handlers:
`request method url contentType body` is the outgoing `fetch`,
`toast title description destructive` a notification,
`schedule ms` the `setTimeout` that reverts the success state,
`clipboardWrite text` the clipboard write,
`pdfSave filename width height` the `pdf.save` call. -/
inductive Action where
  | request : String → String → String → List (String × String) → Action
  | toast : String → String → Bool → Action
  | schedule : Nat → Action
  | clipboardWrite : String → Action
  | pdfSave : String → ℚ → ℚ → Action
deriving DecidableEq, Repr

/-- Whether an action is the outgoing network request. -/
def Action.isRequest : Action → Bool
  | .request _ _ _ _ => true
  | _ => false

/-- Whether an action is a toast notification. -/
def Action.isToast : Action → Bool
  | .toast _ _ _ => true
  | _ => false

/-- Number of network requests in an action trace. -/
def countRequests (acts : List Action) : Nat :=
  acts.countP (fun a => a.isRequest)

/-- The success toast of `onSubmit`. -/
def successToast : Action := .toast "Success!" "Report generated successfully!" false

/-- The failure toast of `onSubmit`, with `variant: 'destructive'`. -/
def errorToast : Action := .toast "Error" "Failed to generate report. Please try again." true

/-- The toast of the Copy Report button. -/
def copiedToast : Action := .toast "Copied!" "Report copied to clipboard." false

/-- The fixed remote endpoint of the `fetch` call in `onSubmit`. -/
def submitEndpoint : String := "https://seoreport-backend.onrender.com/api/submit/"

/-- `JSON.stringify(data)` on the validated form data, as a key-value list:
keys in schema order; the `website` key is omitted when the value is
undefined, kept (possibly as the empty string) otherwise. -/
def serializeBody (d : FormData) : List (String × String) :=
  [("name", d.name), ("email", d.email), ("phone", d.phone)] ++
    match d.website with
    | none => []
    | some w => [("website", w)]

/-- The component's state: the two `useState` booleans, the stored report
(`fullReport`, a JavaScript value or undefined), the current form field
values managed by `useForm`, and `formState.errors`. -/
structure ComponentState where
  isSubmitting : Bool
  isSubmitted : Bool
  fullReport : Option Json
  fields : FormData
  errors : FieldErrors
deriving Repr

/-- The outcome of the `fetch`/`response.json()` pair in `onSubmit`:
a 2xx response with parsed JSON body, a 2xx response whose body fails to
parse, a non-2xx response, or a network failure of `fetch` itself. -/
inductive FetchOutcome where
  | ok : Json → FetchOutcome
  | okUnparseable : FetchOutcome
  | httpError : FetchOutcome
  | networkError : FetchOutcome
deriving Repr

/-- The first, synchronous part of `onSubmit`:
`setIsSubmitting(true); setFullReport(null)` — before the `await fetch`. -/
def submitStart (s : ComponentState) : ComponentState :=
  { s with isSubmitting := true, fullReport := none }

/-- The `try` block of `onSubmit` after the fetch resolves.  Non-2xx throws
`'Something went wrong!'`; an unparseable body makes `response.json()`
throw; a network failure makes `fetch` itself throw.  On a parsed body the
report field is stored (`undefined` when absent), the success toast fires,
`setIsSubmitted(true)` and `reset()` run, and the 3000 ms revert is
scheduled. -/
def tryBody (s : ComponentState) (outcome : FetchOutcome) :
    Except String (ComponentState × List Action) :=
  match outcome with
  | .networkError => .error "Failed to fetch"
  | .httpError => .error "Something went wrong!"
  | .okUnparseable => .error "Unexpected end of JSON input"
  | .ok body =>
      .ok ({ s with
              fullReport := body.get "full_report",
              isSubmitted := true,
              fields := FormData.empty },
           [successToast, Action.schedule 3000])

/-- The `try`/`catch`/`finally` of `onSubmit` after the suspension point:
every thrown error is caught and turned into the error toast, and
`finally` resets `isSubmitting` on both paths. -/
def submitFinish (s : ComponentState) (outcome : FetchOutcome) :
    ComponentState × List Action :=
  match tryBody s outcome with
  | .ok (s2, acts) => ({ s2 with isSubmitting := false }, acts)
  | .error _ => ({ s with isSubmitting := false }, [errorToast])

/-- One complete run of `onSubmit` on validated data: the synchronous
start, the POST request to the fixed endpoint with a JSON content type and
the serialized field values, then the post-response part. -/
def runSubmit (s : ComponentState) (outcome : FetchOutcome) :
    ComponentState × List Action :=
  let s1 := submitStart s
  let (s2, acts) := submitFinish s1 outcome
  (s2, Action.request "POST" submitEndpoint "application/json" (serializeBody s.fields) :: acts)

/-- A click of the submit button.  The button carries
`disabled={isSubmitting}`, so a click while a submission is in flight is a
no-op.  Otherwise `handleSubmit(onSubmit)` runs the resolver: on any field
error it only records the errors and never calls `onSubmit`; on success it
clears the errors and runs `onSubmit`. -/
def handleSubmitClick (env : ValidationEnv) (s : ComponentState)
    (outcome : FetchOutcome) : ComponentState × List Action :=
  if s.isSubmitting then (s, [])
  else
    let errs := validate env s.fields
    if errs.hasAny then ({ s with errors := errs }, [])
    else runSubmit { s with errors := FieldErrors.empty } outcome

/-- The `setTimeout(() => setIsSubmitted(false), 3000)` callback firing. -/
def revertTimerFires (s : ComponentState) : ComponentState :=
  { s with isSubmitted := false }

/-- The spec's SubmissionState, as rendered by the submit button. -/
inductive SubmissionState where
  | Idle
  | Submitting
  | Success
deriving DecidableEq, Repr

/-- The state the submit button renders:
`isSubmitting ? Sending : isSubmitted ? Message Sent : Send Message`. -/
def buttonState (s : ComponentState) : SubmissionState :=
  if s.isSubmitting then .Submitting
  else if s.isSubmitted then .Success
  else .Idle

/-- The submit button's label in each state, from the source. -/
def buttonLabel (s : ComponentState) : String :=
  if s.isSubmitting then "Sending..."
  else if s.isSubmitted then "Message Sent!"
  else "Send Message"

/-- The Copy Report button's onClick handler:
`navigator.clipboard.writeText(fullReport || ''); toast(Copied)`.
The returned promise of `writeText` is not awaited and has no rejection
handler, so the toast fires regardless; `clipboardDenied` says whether the
host denies the write (in which case no text lands on the clipboard). -/
def copyReportClick (fullReport : Option Json) (clipboardDenied : Bool) :
    List Action :=
  let text := (jsOr fullReport (Json.str "")).coerceString
  (if clipboardDenied then [] else [Action.clipboardWrite text]) ++ [copiedToast]

/-- Capture dimensions of the rendered report region, as measured by
html2canvas / `pdf.getImageProperties`. -/
structure ImgProps where
  width : ℚ
  height : ℚ
deriving DecidableEq, Repr

/-- `pdf.internal.pageSize.getWidth()` for a portrait A4 page in mm. -/
def a4WidthMm : ℚ := 210

/-- `handleDownloadPDF`: `document.getElementById('report-section')` is
`none` when no rendered report region exists, and the handler returns at
once; otherwise the region is captured and saved as `seo-report.pdf`
scaled to the page width. -/
def handleDownloadPDF (reportElement : Option ImgProps) : List Action :=
  match reportElement with
  | none => []
  | some img =>
      [Action.pdfSave "seo-report.pdf" a4WidthMm (img.height * a4WidthMm / img.width)]

/-! ### Helper lemmas and sample inputs -/

/-- The post-response part of `onSubmit` issues no network request of its
own on any outcome. -/
theorem countRequests_submitFinish (s : ComponentState) (o : FetchOutcome) :
    countRequests (submitFinish s o).2 = 0 := by
  cases o <;> rfl

/-- No action of the post-response part of `onSubmit` is a request. -/
theorem isRequest_submitFinish_eq_false (s : ComponentState) (o : FetchOutcome) :
    ∀ a ∈ (submitFinish s o).2, a.isRequest = false := by
  cases o with
  | ok body =>
      intro a ha
      simp [submitFinish, tryBody] at ha
      rcases ha with h | h <;> subst h <;> rfl
  | okUnparseable =>
      intro a ha
      simp [submitFinish, tryBody] at ha
      subst ha; rfl
  | httpError =>
      intro a ha
      simp [submitFinish, tryBody] at ha
      subst ha; rfl
  | networkError =>
      intro a ha
      simp [submitFinish, tryBody] at ha
      subst ha; rfl

/-- A complete run of `onSubmit` issues exactly one network request. -/
theorem countRequests_runSubmit (s : ComponentState) (o : FetchOutcome) :
    countRequests (runSubmit s o).2 = 1 := by
  cases o <;> rfl

/-- A sample set of valid field values. -/
def sampleFields : FormData := ⟨"John Doe", "john@example.com", "1234567890", none⟩

/-- A validation environment whose grammars accept everything, for
instantiating environment-parametric theorems. -/
def envW : ValidationEnv := ⟨fun _ => true, fun _ => true⟩

/-- An idle component holding the sample field values. -/
def sampleState : ComponentState :=
  { isSubmitting := false, isSubmitted := false, fullReport := none,
    fields := sampleFields, errors := FieldErrors.empty }

/-- An idle component that already holds a report from an earlier
successful submission. -/
def stateWithReport : ComponentState :=
  { sampleState with fullReport := some (Json.str "old report") }

/-- An idle component whose name field is a single character. -/
def invalidNameState : ComponentState :=
  { sampleState with fields := ⟨"J", "john@example.com", "1234567890", none⟩ }

/-- A sample success body carrying a report. -/
def sampleBody : Json := Json.obj [("full_report", Json.str "# Hello")]

/-! ### Claims -/

/-- Claim C1: for every form input whose name has length < 2, or whose
email does not match the email grammar, or whose phone has length < 10, or
whose website is non-empty and does not parse as a URL, the submission is
blocked before the network step: no POST request is issued, and a
field-level error message is shown for each offending field. -/
theorem invalid_input_blocks_submission (env : ValidationEnv)
    (s : ComponentState) (outcome : FetchOutcome)
    (hidle : s.isSubmitting = false)
    (hinv : s.fields.name.length < 2 ∨ env.emailOk s.fields.email = false ∨
      s.fields.phone.length < 10 ∨
      ∃ w, s.fields.website = some w ∧ w ≠ "" ∧ env.urlOk w = false) :
    (handleSubmitClick env s outcome).2 = [] ∧
    countRequests (handleSubmitClick env s outcome).2 = 0 ∧
    (s.fields.name.length < 2 →
      (handleSubmitClick env s outcome).1.errors.name =
        some "Name must be at least 2 characters") ∧
    (env.emailOk s.fields.email = false →
      (handleSubmitClick env s outcome).1.errors.email =
        some "Please enter a valid email address") ∧
    (s.fields.phone.length < 10 →
      (handleSubmitClick env s outcome).1.errors.phone =
        some "Please enter a valid phone number") ∧
    (∀ w, s.fields.website = some w → w ≠ "" → env.urlOk w = false →
      (handleSubmitClick env s outcome).1.errors.website =
        some "Please enter a valid website URL") := by
  have hkey : (validate env s.fields).hasAny = true := by
    rcases hinv with h | h | h | ⟨w, hw, hne, hu⟩
    · simp [FieldErrors.hasAny, validate, h]
    · simp [FieldErrors.hasAny, validate, h]
    · simp [FieldErrors.hasAny, validate, h]
    · simp [FieldErrors.hasAny, validate, hw, hne, hu]
  have hred : handleSubmitClick env s outcome =
      ({ s with errors := validate env s.fields }, []) := by
    simp [handleSubmitClick, hidle, hkey]
  rw [hred]
  refine ⟨rfl, rfl, ?_, ?_, ?_, ?_⟩
  · intro h; simp [validate, h]
  · intro h; simp [validate, h]
  · intro h; simp [validate, h]
  · intro w hw hne hu; simp [validate, hw, hne, hu]

/-- Witness for C1: a one-character name blocks the submission. -/
theorem invalid_input_blocks_submission_witness :
    (handleSubmitClick envW invalidNameState FetchOutcome.httpError).2 = [] :=
  (invalid_input_blocks_submission envW invalidNameState FetchOutcome.httpError
    rfl (Or.inl (by decide))).1

/-- Claim C2: at most one submission is in flight at any time — a valid
submit click issues exactly one network request, the submit affordance
renders as Submitting (disabled) from the synchronous start of the run,
and a second click arriving while the first request is pending is a no-op
that issues no action at all. -/
theorem single_submission_in_flight (env : ValidationEnv)
    (s : ComponentState) (outcome outcome2 : FetchOutcome)
    (hidle : s.isSubmitting = false)
    (hvalid : (validate env s.fields).hasAny = false) :
    countRequests (handleSubmitClick env s outcome).2 = 1 ∧
    buttonState (submitStart s) = SubmissionState.Submitting ∧
    handleSubmitClick env (submitStart s) outcome2 = (submitStart s, []) := by
  refine ⟨?_, ?_, ?_⟩
  · simp only [handleSubmitClick, hidle, hvalid, Bool.false_eq_true, if_false]
    exact countRequests_runSubmit _ _
  · simp [buttonState, submitStart]
  · simp [handleSubmitClick, submitStart]

/-- Witness for C2: the sample valid submission issues one request. -/
theorem single_submission_in_flight_witness :
    countRequests (handleSubmitClick envW sampleState FetchOutcome.httpError).2 = 1 :=
  (single_submission_in_flight envW sampleState FetchOutcome.httpError
    FetchOutcome.httpError rfl rfl).1

/-- Claim C3: a 2xx response whose JSON body carries a full_report string
stores that string as the current report, transitions to Success, surfaces
the confirmation notification, schedules the fixed 3000 ms revert, clears
the input fields, and after the timer fires the affordance is Idle. -/
theorem success_response_flow (s : ComponentState) (body : Json) (r : String)
    (hbody : body.get "full_report" = some (Json.str r)) :
    (runSubmit s (FetchOutcome.ok body)).1.fullReport = some (Json.str r) ∧
    buttonState (runSubmit s (FetchOutcome.ok body)).1 = SubmissionState.Success ∧
    successToast ∈ (runSubmit s (FetchOutcome.ok body)).2 ∧
    Action.schedule 3000 ∈ (runSubmit s (FetchOutcome.ok body)).2 ∧
    (runSubmit s (FetchOutcome.ok body)).1.fields = FormData.empty ∧
    buttonState (revertTimerFires (runSubmit s (FetchOutcome.ok body)).1) =
      SubmissionState.Idle := by
  refine ⟨?_, ?_, ?_, ?_, ?_, ?_⟩
  · exact hbody
  · rfl
  · simp [runSubmit, submitFinish, tryBody]
  · simp [runSubmit, submitFinish, tryBody]
  · rfl
  · rfl

/-- Witness for C3: the documented body stores the report # Hello. -/
theorem success_response_flow_witness :
    (runSubmit sampleState (FetchOutcome.ok sampleBody)).1.fullReport =
      some (Json.str "# Hello") :=
  (success_response_flow sampleState sampleBody "# Hello" rfl).1

/-- Counterexample to C4: `onSubmit` runs `setFullReport(null)` before the
fetch, so after a failing submission a previously stored report is gone,
not left untouched. -/
theorem previous_report_not_retained_on_failure :
    (runSubmit stateWithReport FetchOutcome.httpError).1.fullReport ≠
      some (Json.str "old report") := by
  have h : (runSubmit stateWithReport FetchOutcome.httpError).1.fullReport = none := rfl
  rw [h]
  simp

/-- Claim C4 as amended: on a non-2xx response, a network failure or an
unparseable body, no new report is produced (the report is null, having
been cleared when the submission started), the form fields retain their
values, the Submitted flag is unchanged, the affordance returns to Idle,
and exactly the error notification is shown. -/
theorem failure_outcome_frame (s : ComponentState) (outcome : FetchOutcome)
    (hfail : outcome = FetchOutcome.httpError ∨ outcome = FetchOutcome.networkError ∨
      outcome = FetchOutcome.okUnparseable) :
    (runSubmit s outcome).1.fullReport = none ∧
    (runSubmit s outcome).1.fields = s.fields ∧
    (runSubmit s outcome).1.isSubmitted = s.isSubmitted ∧
    (runSubmit s outcome).1.isSubmitting = false ∧
    ((runSubmit s outcome).2).filter (fun a => a.isToast) = [errorToast] := by
  rcases hfail with h | h | h <;> subst h <;> exact ⟨rfl, rfl, rfl, rfl, rfl⟩

/-- Witness for the amended C4: a non-2xx response on the state holding an
old report leaves no report stored. -/
theorem failure_outcome_frame_witness :
    (runSubmit stateWithReport FetchOutcome.httpError).1.fullReport = none :=
  (failure_outcome_frame stateWithReport FetchOutcome.httpError (Or.inl rfl)).1

/-- Counterexample to C5: a 2xx response whose body is the JSON object
with no full_report field takes the success path — Submitted is set, the
success notification (not the failure one) is surfaced, and the fields are
cleared. -/
theorem missing_report_field_takes_success_path :
    (runSubmit sampleState (FetchOutcome.ok (Json.obj []))).1.isSubmitted = true ∧
    ((runSubmit sampleState (FetchOutcome.ok (Json.obj []))).2).filter
      (fun a => a.isToast) = [successToast] ∧
    (runSubmit sampleState (FetchOutcome.ok (Json.obj []))).1.fields = FormData.empty :=
  ⟨rfl, rfl, rfl⟩

/-- Claim C5 as amended: a 2xx response with an unparseable body is
treated as a failure, with the same generic failure notification as a
transport error and the Submitted flag unchanged; but a 2xx response whose
body is parseable JSON without a full_report field takes the success path
(confirmation notification, Submitted set, fields cleared) while storing
no report. -/
theorem malformed_response_handling (s : ComponentState) (body : Json)
    (hmiss : body.get "full_report" = none) :
    ((runSubmit s FetchOutcome.okUnparseable).2).filter (fun a => a.isToast) =
      [errorToast] ∧
    (runSubmit s FetchOutcome.okUnparseable).1.isSubmitted = s.isSubmitted ∧
    ((runSubmit s (FetchOutcome.ok body)).2).filter (fun a => a.isToast) =
      [successToast] ∧
    (runSubmit s (FetchOutcome.ok body)).1.isSubmitted = true ∧
    (runSubmit s (FetchOutcome.ok body)).1.fullReport = none ∧
    (runSubmit s (FetchOutcome.ok body)).1.fields = FormData.empty := by
  exact ⟨rfl, rfl, rfl, rfl, hmiss, rfl⟩

/-- Witness for the amended C5: the empty JSON object body. -/
theorem malformed_response_handling_witness :
    ((runSubmit sampleState (FetchOutcome.ok (Json.obj []))).2).filter
      (fun a => a.isToast) = [successToast] :=
  (malformed_response_handling sampleState (Json.obj []) rfl).2.2.1

/-- Claim C6: when a report is present (a non-empty string, which is what
renders the export buttons) and the clipboard write is permitted, the text
written to the clipboard is exactly the stored report, with no
transformation. -/
theorem copy_writes_report_verbatim (report : String) (hne : report ≠ "") :
    copyReportClick (some (Json.str report)) false =
      [Action.clipboardWrite report, copiedToast] := by
  have hempty : report.isEmpty = false := by
    rcases h : report.isEmpty with _ | _
    · rfl
    · exact absurd ((String.isEmpty_iff report).mp h) hne
  simp [copyReportClick, jsOr, Json.truthy, Json.coerceString, hempty]

/-- Witness for C6: copying the report # Hello writes exactly # Hello. -/
theorem copy_writes_report_verbatim_witness :
    copyReportClick (some (Json.str "# Hello")) false =
      [Action.clipboardWrite "# Hello", copiedToast] :=
  copy_writes_report_verbatim "# Hello" (by decide)

/-- Counterexample to C7: with clipboard access denied, the handler still
emits exactly the confirmation notification and no error notification. -/
theorem copy_denied_still_confirms :
    copyReportClick (some (Json.str "# Hello")) true = [copiedToast] := rfl

/-- Claim C7 as amended: the copy handler does not await the clipboard
write, so the confirmation notification is surfaced unconditionally —
whether or not the host denies clipboard access — and no error
notification is ever surfaced. -/
theorem copy_toast_unconditional (fullReport : Option Json) (denied : Bool) :
    (copyReportClick fullReport denied).filter (fun a => a.isToast) = [copiedToast] := by
  cases denied <;> rfl

/-- Claim C8: every valid submit click issues exactly the POST request to
the fixed HTTPS endpoint with a JSON content type, whose body holds the
name, email and phone values in order, with the website key omitted when
the field is undefined and carried (possibly as the empty string) when it
is present. -/
theorem outbound_wire_contract (env : ValidationEnv) (s : ComponentState)
    (outcome : FetchOutcome) (hidle : s.isSubmitting = false)
    (hvalid : (validate env s.fields).hasAny = false) :
    ((handleSubmitClick env s outcome).2).filter (fun a => a.isRequest) =
      [Action.request "POST" submitEndpoint "application/json" (serializeBody s.fields)] ∧
    submitEndpoint = "https://seoreport-backend.onrender.com/api/submit/" ∧
    (s.fields.website = none →
      serializeBody s.fields =
        [("name", s.fields.name), ("email", s.fields.email), ("phone", s.fields.phone)]) ∧
    (∀ w, s.fields.website = some w →
      serializeBody s.fields =
        [("name", s.fields.name), ("email", s.fields.email), ("phone", s.fields.phone),
          ("website", w)]) := by
  refine ⟨?_, rfl, ?_, ?_⟩
  · simp only [handleSubmitClick, hidle, hvalid, Bool.false_eq_true, if_false, runSubmit]
    simp [Action.isRequest]
    exact fun a ha => isRequest_submitFinish_eq_false _ _ a ha
  · intro h; simp [serializeBody, h]
  · intro w h; simp [serializeBody, h]

/-- Witness for C8: the sample valid submission posts its serialized
fields to the fixed endpoint. -/
theorem outbound_wire_contract_witness :
    ((handleSubmitClick envW sampleState FetchOutcome.httpError).2).filter
      (fun a => a.isRequest) =
      [Action.request "POST" submitEndpoint "application/json" (serializeBody sampleFields)] :=
  (outbound_wire_contract envW sampleState FetchOutcome.httpError rfl rfl).1

/-- Claim C9: every run of the submit handler completes normally — the
try/catch model is a total function, every thrown error being caught —
and the Submitting flag is false on completion for every outcome, so the
submit affordance is re-enabled. -/
theorem submit_handler_always_completes (s : ComponentState) (outcome : FetchOutcome) :
    (runSubmit s outcome).1.isSubmitting = false := by
  cases outcome <;> rfl

/-- Claim C10: triggering the PDF export when no rendered report region
element exists is a silent no-op: no capture, no save, no notification. -/
theorem pdf_noop_without_report_region : handleDownloadPDF none = [] := rfl

end SeoRanker
